import Mathlib

/-!
Verification development for `notify.py`, a single-shot live-broadcast
notification bot.  The Python source is shallowly embedded below:

* File and network effects are passed in explicitly.  Reading a file is
  modelled by the outcome of the read (`TemplRead` / `StateRead`): the file
  may be absent (Python raises `FileNotFoundError`), its bytes may fail
  UTF-8 decoding (Python raises `UnicodeDecodeError`, since the file is
  opened with `encoding="utf-8"`), or it decodes to text.  For the state
  file the subsequent `json.load` may fail (`json.JSONDecodeError`) or
  yield a JSON value.  The UTF-8 and JSON decoders themselves belong to
  the Python standard library, not to this repository, so only their
  outcome is modelled; which exception class each outcome raises, and
  which classes the source catches, is embedded faithfully.
* `requests` / `atproto` calls are modelled by their outcomes
  (`World.lookup`, `World.downloadResult`, `World.publishResult`); the
  `except` clauses of the source are embedded as matches on those
  outcomes.
* The current time (`datetime.now(jst).strftime(...)` in `build_message`)
  is passed in as the string `now`.
* Python exceptions escaping `main` are `Except.error`; a normal return
  is `Except.ok` carrying the exit code together with the observable
  effect trace (state written, posts submitted, publish attempts).
* Python strings are Lean `String`s; `str.replace` is embedded
  character-exactly as `pyReplace` (left-to-right, non-overlapping,
  every occurrence).  All patterns used by the program are non-empty.
* JSON numbers are modelled as integers; no claim depends on numerics.
-/

namespace Notify

/-- Exception classes that the embedded code can raise or catch. -/
inductive PyExc where
  | unicodeDecodeError
  | attributeError
  | runtimeError
deriving DecidableEq

/-- A JSON value, as produced by Python's `json.load`. -/
inductive JsonVal where
  | null
  | bool (b : Bool)
  | num (n : Int)
  | str (s : String)
  | arr (elems : List JsonVal)
  | obj (entries : List (String × JsonVal))

/-- Outcome of opening+reading the template file as UTF-8 text. -/
inductive TemplRead where
  | absent                      -- `FileNotFoundError`
  | notUtf8                     -- bytes are not valid UTF-8: `UnicodeDecodeError`
  | utf8 (content : String)     -- decoded text
deriving DecidableEq

/-- Outcome of opening+reading+JSON-parsing the state file.
`utf8 none` is valid UTF-8 text that fails `json.load`
(`json.JSONDecodeError`); `utf8 (some v)` is a successful parse. -/
inductive StateRead where
  | absent
  | notUtf8
  | utf8 (parsed : Option JsonVal)

/-- Python truthiness of an `Optional[str]`: `None` and `""` are falsy. -/
def pyTruthyStrOpt : Option String → Bool
  | none => false
  | some s => !(s.data.isEmpty)

/-- Python truthiness of an `Optional[bytes]`: `None` and `b""` are falsy. -/
def pyTruthyBytesOpt : Option (List Nat) → Bool
  | none => false
  | some b => !(b.isEmpty)

/-- Python `x or d` on a defaulted optional string (`title or "配信中"`). -/
def pyOrStr (x : Option String) (d : String) : String :=
  if pyTruthyStrOpt x then x.getD "" else d

/-- Python `==` between `last_notified` (any JSON value or `None`) and a
`str`: true only for an equal string. -/
def pyEq (v : Option JsonVal) (s : String) : Bool :=
  match v with
  | some (JsonVal.str t) => s == t
  | _ => false

/-- First-match lookup in a JSON object's entry list (`dict.get`). -/
def objGet : List (String × JsonVal) → String → Option JsonVal
  | [], _ => none
  | p :: m, k => if p.1 == k then some p.2 else objGet m k

/-- `d[k] = v` on a Python dict: replace the value in place if the key is
present, else append the new entry. -/
def objSet : List (String × JsonVal) → String → JsonVal → List (String × JsonVal)
  | [], k, v => [(k, v)]
  | p :: m, k, v => if p.1 == k then (k, v) :: m else p :: objSet m k v

/-- Lines 27-34: `load_state` catches `FileNotFoundError` and
`json.JSONDecodeError`, returning `{}`; any other exception (notably
`UnicodeDecodeError` from non-UTF-8 bytes) propagates. -/
def load_state (r : StateRead) : Except PyExc JsonVal :=
  match r with
  | StateRead.absent => Except.ok (JsonVal.obj [])
  | StateRead.notUtf8 => Except.error PyExc.unicodeDecodeError
  | StateRead.utf8 none => Except.ok (JsonVal.obj [])
  | StateRead.utf8 (some v) => Except.ok v

/-- Lines 88-93: `load_template` catches only `FileNotFoundError`
(returning `None`); a `UnicodeDecodeError` propagates. -/
def load_template (r : TemplRead) : Except PyExc (Option String) :=
  match r with
  | TemplRead.absent => Except.ok none
  | TemplRead.notUtf8 => Except.error PyExc.unicodeDecodeError
  | TemplRead.utf8 s => Except.ok (some s)

/-- The built-in default template (line 159). -/
def default_template : String := "「{title}」\n{url}（{now}）\n@YouTubeより配信中！"

/-- Lines 151-160 of `main`: pick the file template when it is truthy
(non-`None` and non-empty), else the `MESSAGE_TEMPLATE` environment value
when set, else the built-in default. -/
def resolve_template (fileRead : TemplRead) (message_template_env : Option String) :
    Except PyExc String :=
  match load_template fileRead with
  | Except.error e => Except.error e
  | Except.ok file_template =>
    if pyTruthyStrOpt file_template then Except.ok (file_template.getD "")
    else Except.ok (message_template_env.getD default_template)

/-- One step of Python `str.replace`, with explicit fuel (the fuel is set
to the length of the subject string, which bounds the number of steps):
scan left to right; at a match of the (non-empty) pattern, emit the
replacement and continue after the matched span; occurrences are
non-overlapping.  The embedded program only ever passes the non-empty
literal patterns of the four placeholders. -/
def pyReplaceFuel : Nat → List Char → List Char → List Char → List Char
  | 0, s, _, _ => s
  | _ + 1, [], _, _ => []
  | fuel + 1, c :: s, pat, rep =>
    if pat.isPrefixOf (c :: s) && !(pat.isEmpty) then
      rep ++ pyReplaceFuel fuel (List.drop (pat.length - 1) s) pat rep
    else
      c :: pyReplaceFuel fuel s pat rep

/-- Python `s.replace(pat, rep)` on character lists. -/
def pyReplace (s pat rep : List Char) : List Char :=
  pyReplaceFuel s.length s pat rep

/-- Line 97: the canonical watch URL for a video id. -/
def watch_url (video_id : String) : String :=
  "https://www.youtube.com/watch?v=" ++ video_id

/-- Lines 96-110: `build_message` substitutes the four placeholders by
chained `str.replace`, in source order `{url}`, `{video_id}`, `{title}`,
`{now}`.  The formatted JST timestamp is passed in as `now`.  The
source's `title or ""` is the identity on `str` values and is embedded
as such. -/
def build_message (template video_id title now : String) : String :=
  ⟨pyReplace
    (pyReplace
      (pyReplace
        (pyReplace template.data ("{url}".data) ((watch_url video_id).data))
        ("{video_id}".data) (video_id.data))
      ("{title}".data) (title.data))
    ("{now}".data) (now.data)⟩

/-- A rich-text link facet (byte-offset span) of the social protocol. -/
structure Facet where
  byteStart : Nat
  byteEnd : Nat
  uri : String

/-- A post as submitted to the social service: the text, an optional
image embed (blob bytes, alt text), and optional rich-text facets. -/
structure BskyPost where
  text : String
  embed : Option (List Nat × String)
  facets : Option (List Facet)

/-- Lines 114-137: `post_to_bluesky` submits the text with an image embed
(alt `"YouTube thumbnail"`) when the image bytes are truthy, else text
only; `send_post` is called without a `facets` argument in both branches,
so no facets are attached.  Login/submission failures are modelled at the
call site in `main` (`World.publishResult`). -/
def post_to_bluesky (handle app_password text : String)
    (image_bytes : Option (List Nat)) : BskyPost :=
  if pyTruthyBytesOpt image_bytes then
    -- text, embed (blob bytes + alt), facets
    ⟨text, some (image_bytes.getD [], "YouTube thumbnail"), none⟩
  else
    ⟨text, none, none⟩

/-- Lines 190-194 of `main`: download the thumbnail only when the
thumbnail URL is truthy; a download failure (timeout or non-2xx, raised
by `download_image`) is an error of the whole step. -/
def fetch_image (thumb_url : Option String) (dl : Except Unit (List Nat)) :
    Except Unit (Option (List Nat)) :=
  if pyTruthyStrOpt thumb_url then dl.map some else Except.ok none

/-- Lines 19-23: `must_env` raises `RuntimeError` when the variable is
unset or empty. -/
def must_env (env : String → Option String) (name : String) : Except PyExc String :=
  match env name with
  | some v => if v.data.isEmpty then Except.error PyExc.runtimeError else Except.ok v
  | none => Except.error PyExc.runtimeError

/-- The ambient effects of one run.  The four credentials are the values
already obtained by the `must_env` calls of lines 143-146 (a run in which
one is missing dies before any of the behaviour the claims concern).
`lookup` is the outcome of `youtube_get_live_video` (lines 45-78):
an exception, or the triple `(video_id, title, thumb_url)`. -/
structure World where
  yt_api_key : String
  yt_channel_id : String
  bsky_handle : String
  bsky_app_password : String
  templateFile : TemplRead
  message_template_env : Option String
  stateFile : StateRead
  lookup : Except Unit (Option String × Option String × Option String)
  downloadResult : Except Unit (List Nat)
  publishResult : Except Unit Unit
  now : String

/-- The observable outcome of a run that returned normally: the exit
code, the mapping written to the state file (if `save_state` was called),
the number of `post_to_bluesky` invocations (each performs a login), and
the successfully submitted posts. -/
structure RunResult where
  exit : Nat
  saved : Option (List (String × JsonVal))
  publishCalls : Nat
  posted : List BskyPost

/-- Lines 164-212 of `main`, after the state has been loaded as a dict
`m`: read the marker, look up the live broadcast (exceptions → exit 2),
handle the IDLE and SKIP paths, else build the message, fetch the
thumbnail and post (exceptions → exit 3), then persist the new marker and
exit 0. -/
def run_after_state (w : World) (template : String) (m : List (String × JsonVal)) :
    RunResult :=
  let last_notified := objGet m "last_notified_video_id"
  match w.lookup with
  | Except.error _ => ⟨2, none, 0, []⟩
  | Except.ok (live_video_id, title, thumb_url) =>
    if !(pyTruthyStrOpt live_video_id) then ⟨0, none, 0, []⟩
    else
      let vid := live_video_id.getD ""
      if pyEq last_notified vid then ⟨0, none, 0, []⟩
      else
        let title2 := pyOrStr title "配信中"
        let msg := build_message template vid title2 w.now
        match fetch_image thumb_url w.downloadResult with
        | Except.error _ => ⟨3, none, 0, []⟩
        | Except.ok image_bytes =>
          match w.publishResult with
          | Except.error _ => ⟨3, none, 1, []⟩
          | Except.ok _ =>
            ⟨0, some (objSet m "last_notified_video_id" (JsonVal.str vid)), 1,
              [post_to_bluesky w.bsky_handle w.bsky_app_password msg image_bytes]⟩

/-- Lines 141-212: `main`.  Template resolution precedes the state load
(lines 151-163); `state.get` on a non-dict JSON value raises
`AttributeError`; an exception escaping `main` is `Except.error`. -/
def main (w : World) : Except PyExc RunResult :=
  match resolve_template w.templateFile w.message_template_env with
  | Except.error e => Except.error e
  | Except.ok template =>
    match load_state w.stateFile with
    | Except.error e => Except.error e
    | Except.ok (JsonVal.obj m) => Except.ok (run_after_state w template m)
    | Except.ok _ => Except.error PyExc.attributeError

/-! ### Template segments

To state what the chained replacements of `build_message` do to an
arbitrary template, templates are presented as lists of segments: literal
text or a `{name}` placeholder occurrence.  `tmplStr` renders the
segment list to the template string the program actually receives. -/

/-- A template segment: literal text, or one `{name}` occurrence. -/
inductive Seg where
  | lit (s : String)
  | ph (name : String)

/-- The characters a segment contributes to the template string. -/
def segChars : Seg → List Char
  | Seg.lit s => s.data
  | Seg.ph n => '{' :: (n.data ++ ['}'])

/-- Concatenation of character lists. -/
def catChars : List (List Char) → List Char
  | [] => []
  | x :: xs => x ++ catChars xs

/-- The template string denoted by a segment list. -/
def tmplChars (t : List Seg) : List Char := catChars (t.map segChars)

/-- The template string denoted by a segment list, as a `String`. -/
def tmplStr (t : List Seg) : String := ⟨tmplChars t⟩

/-- Whether a character occurs in a list. -/
def hasChar : List Char → Char → Bool
  | [], _ => false
  | c :: l, d => c == d || hasChar l d

/-- Whether `pat` occurs as a contiguous substring of the second list. -/
def hasSub (pat : List Char) : List Char → Bool
  | [] => pat.isEmpty
  | c :: t => pat.isPrefixOf (c :: t) || hasSub pat t

/-- Well-formed segment: literal text free of `{` (so every placeholder
occurrence in the template is one of the `ph` segments), and a
placeholder name free of both braces. -/
def segOkB : Seg → Bool
  | Seg.lit s => !(hasChar s.data '{')
  | Seg.ph n => !(hasChar n.data '{') && !(hasChar n.data '}')

/-- Simultaneous (single-pass) substitution of the four placeholders of
`build_message`: each recognized placeholder segment becomes its value,
an unrecognized `{name}` stays verbatim, literal text is untouched. -/
def segSubst (url vid title now : String) : Seg → List Char
  | Seg.lit s => s.data
  | Seg.ph n =>
    if n == "url" then url.data
    else if n == "video_id" then vid.data
    else if n == "title" then title.data
    else if n == "now" then now.data
    else '{' :: (n.data ++ ['}'])

/-- Render a segment list under simultaneous substitution. -/
def substChars (t : List Seg) (url vid title now : String) : List Char :=
  catChars (t.map (segSubst url vid title now))

/-- Replace the `{nm}` placeholder segments by a literal (the effect one
`str.replace` pass has on a well-formed segment list). -/
def replaceSeg (nm : String) (rep : List Char) : List Seg → List Seg :=
  List.map (fun seg => match seg with
    | Seg.ph n => if n == nm then Seg.lit ⟨rep⟩ else Seg.ph n
    | s => s)

/-! ### Concrete worlds used by the witnesses -/

/-- Witness world for the SKIP path: the stored marker equals the id the
lookup returns. -/
def wSkip : World :=
  ⟨"k", "ch", "h.example", "pw",
    TemplRead.absent, none,
    StateRead.utf8 (some (JsonVal.obj [("last_notified_video_id", JsonVal.str "abc123")])),
    Except.ok (some "abc123", some "Live Now", none),
    Except.ok [], Except.ok (), "2025-01-01 00:00"⟩

/-- Witness world for the publish-failure path: a new id is found and the
post attempt raises. -/
def wPubFail : World :=
  ⟨"k", "ch", "h.example", "pw",
    TemplRead.absent, none,
    StateRead.utf8 (some (JsonVal.obj [("last_notified_video_id", JsonVal.str "abc123")])),
    Except.ok (some "xyz789", some "Live Now", none),
    Except.ok [], Except.error (), "2025-01-01 00:00"⟩

/-- Witness world for exit-code totality: an ordinary successful run. -/
def wTotal : World :=
  ⟨"k", "ch", "h.example", "pw",
    TemplRead.absent, none,
    StateRead.absent,
    Except.ok (some "abc123", some "Live Now", none),
    Except.ok [7, 7], Except.ok (), "2025-01-01 00:00"⟩

/-- Witness world for the thumbnail-download failure path. -/
def wThumbFail : World :=
  ⟨"k", "ch", "h.example", "pw",
    TemplRead.absent, none,
    StateRead.utf8 (some (JsonVal.obj [("last_notified_video_id", JsonVal.str "abc123")])),
    Except.ok (some "xyz789", some "Live Now", some "https://i.ytimg.com/vi/xyz789/maxresdefault.jpg"),
    Except.error (), Except.ok (), "2025-01-01 00:00"⟩

/-- Witness world for the frame property of the successful persist: the
loaded state carries an extra key beside the marker. -/
def wFrame : World :=
  ⟨"k", "ch", "h.example", "pw",
    TemplRead.absent, none,
    StateRead.utf8 (some (JsonVal.obj
      [("other_key", JsonVal.num 5), ("last_notified_video_id", JsonVal.str "abc123")])),
    Except.ok (some "xyz789", some "Live Now", none),
    Except.ok [], Except.ok (), "2025-01-01 00:00"⟩

/-- Witness world for the non-UTF-8 template file. -/
def wBadTemplate : World :=
  ⟨"k", "ch", "h.example", "pw",
    TemplRead.notUtf8, none,
    StateRead.absent,
    Except.ok (none, none, none),
    Except.ok [], Except.ok (), "2025-01-01 00:00"⟩

/-! ## Helper lemmas -/

/-- Template resolution only fails on a non-UTF-8 template file. -/
theorem resolve_template_isOk (fr : TemplRead) (ov : Option String)
    (h : fr ≠ TemplRead.notUtf8) :
    ∃ tpl, resolve_template fr ov = Except.ok tpl := by
  cases fr with
  | absent => exact ⟨ov.getD default_template, rfl⟩
  | notUtf8 => exact absurd rfl h
  | utf8 s =>
    by_cases hs : pyTruthyStrOpt (some s) = true
    · exact ⟨s, by simp [resolve_template, load_template, hs]⟩
    · exact ⟨ov.getD default_template, by
        simp only [Bool.not_eq_true] at hs
        simp [resolve_template, load_template, hs]⟩

/-- `main` reduces to `run_after_state` once the template resolves and the
state file loads as a dict. -/
theorem main_eq_run (w : World) (tpl : String) (m : List (String × JsonVal))
    (htpl : resolve_template w.templateFile w.message_template_env = Except.ok tpl)
    (hs : load_state w.stateFile = Except.ok (JsonVal.obj m)) :
    main w = Except.ok (run_after_state w tpl m) := by
  unfold main
  rw [htpl, hs]

/-- Updating one key of a dict leaves every other key's value unchanged. -/
theorem objGet_objSet_ne (m : List (String × JsonVal)) (k k' : String) (v : JsonVal)
    (h : k' ≠ k) : objGet (objSet m k v) k' = objGet m k' := by
  have hbeq : (k == k') = false := by
    simp only [beq_eq_false_iff_ne, ne_eq]
    exact fun hk => h hk.symm
  induction m with
  | nil => simp [objSet, objGet, hbeq]
  | cons p m ih =>
    by_cases hp : (p.1 == k) = true
    · have hpk : p.1 = k := by simpa using hp
      have hpk' : ¬ p.1 = k' := by rw [hpk]; exact fun hh => h hh.symm
      simp [objSet, objGet, hp, hbeq, hpk']
    · simp only [Bool.not_eq_true] at hp
      simp [objSet, objGet, hp, ih]

/-- Updating a key of a dict makes that key map to the new value. -/
theorem objGet_objSet_self (m : List (String × JsonVal)) (k : String) (v : JsonVal) :
    objGet (objSet m k v) k = some v := by
  induction m with
  | nil => simp [objSet, objGet]
  | cons p m ih =>
    by_cases hp : (p.1 == k) = true
    · simp [objSet, objGet, hp]
    · simp only [Bool.not_eq_true] at hp
      simp [objSet, objGet, hp, ih]

/-! ## Claims C1, C2, C3, C9, C10 (orchestrator paths) -/

/-- C1: in every run where the live lookup returns a broadcast whose id
equals the stored last-notified id, no publish call is made
(`post_to_bluesky` is never invoked), no state is written, and the
process exits with code 0. -/
theorem main_skip_when_already_notified (w : World) (m : List (String × JsonVal))
    (vid : String) (title thumb : Option String)
    (htf : w.templateFile ≠ TemplRead.notUtf8)
    (hs : load_state w.stateFile = Except.ok (JsonVal.obj m))
    (hl : w.lookup = Except.ok (some vid, title, thumb))
    (hv : pyTruthyStrOpt (some vid) = true)
    (heq : pyEq (objGet m "last_notified_video_id") vid = true) :
    main w = Except.ok ⟨0, none, 0, []⟩ := by
  obtain ⟨tpl, htpl⟩ := resolve_template_isOk w.templateFile w.message_template_env htf
  rw [main_eq_run w tpl m htpl hs]
  unfold run_after_state
  rw [hl]
  simp [hv, heq]

/-- C1 witness: stored marker `"abc123"`, lookup returns `"abc123"`. -/
theorem main_skip_when_already_notified_witness :
    (wSkip.templateFile ≠ TemplRead.notUtf8) ∧
    load_state wSkip.stateFile =
      Except.ok (JsonVal.obj [("last_notified_video_id", JsonVal.str "abc123")]) ∧
    wSkip.lookup = Except.ok (some "abc123", some "Live Now", none) ∧
    pyTruthyStrOpt (some "abc123") = true ∧
    pyEq (objGet [("last_notified_video_id", JsonVal.str "abc123")]
      "last_notified_video_id") "abc123" = true ∧
    main wSkip = Except.ok ⟨0, none, 0, []⟩ :=
  ⟨by decide, rfl, rfl, rfl, rfl,
    main_skip_when_already_notified wSkip
      [("last_notified_video_id", JsonVal.str "abc123")] "abc123" (some "Live Now") none
      (by decide) rfl rfl rfl rfl⟩

/-- C2: in every run where a new broadcast id is detected and the publish
step raises, the process exits with code 3 and `save_state` is never
called, so the persisted state is exactly what it was at the start. -/
theorem main_publish_failure_preserves_state (w : World) (m : List (String × JsonVal))
    (vid : String) (title thumb : Option String) (img : Option (List Nat))
    (htf : w.templateFile ≠ TemplRead.notUtf8)
    (hs : load_state w.stateFile = Except.ok (JsonVal.obj m))
    (hl : w.lookup = Except.ok (some vid, title, thumb))
    (hv : pyTruthyStrOpt (some vid) = true)
    (hnew : pyEq (objGet m "last_notified_video_id") vid = false)
    (himg : fetch_image thumb w.downloadResult = Except.ok img)
    (hpub : w.publishResult = Except.error ()) :
    main w = Except.ok ⟨3, none, 1, []⟩ := by
  obtain ⟨tpl, htpl⟩ := resolve_template_isOk w.templateFile w.message_template_env htf
  rw [main_eq_run w tpl m htpl hs]
  unfold run_after_state
  rw [hl]
  simp [hv, hnew, himg, hpub]

/-- C2 witness: stored marker `"abc123"`, new broadcast `"xyz789"`,
publish raises. -/
theorem main_publish_failure_preserves_state_witness :
    (wPubFail.templateFile ≠ TemplRead.notUtf8) ∧
    load_state wPubFail.stateFile =
      Except.ok (JsonVal.obj [("last_notified_video_id", JsonVal.str "abc123")]) ∧
    wPubFail.lookup = Except.ok (some "xyz789", some "Live Now", none) ∧
    pyTruthyStrOpt (some "xyz789") = true ∧
    pyEq (objGet [("last_notified_video_id", JsonVal.str "abc123")]
      "last_notified_video_id") "xyz789" = false ∧
    fetch_image none wPubFail.downloadResult = Except.ok none ∧
    wPubFail.publishResult = Except.error () ∧
    main wPubFail = Except.ok ⟨3, none, 1, []⟩ :=
  ⟨by decide, rfl, rfl, rfl, rfl, rfl, rfl,
    main_publish_failure_preserves_state wPubFail
      [("last_notified_video_id", JsonVal.str "abc123")] "xyz789" (some "Live Now") none none
      (by decide) rfl rfl rfl rfl rfl rfl⟩

/-- C3: for every reachable lookup-result/stored-state combination the
run returns exactly one of the exit codes 0, 2, 3, and the state file is
written iff the exit code is 0 and a post was actually submitted (never
on the IDLE or SKIP exit-0 paths). -/
theorem main_exit_code_totality (w : World) (m : List (String × JsonVal))
    (htf : w.templateFile ≠ TemplRead.notUtf8)
    (hs : load_state w.stateFile = Except.ok (JsonVal.obj m)) :
    ∃ r, main w = Except.ok r ∧ (r.exit = 0 ∨ r.exit = 2 ∨ r.exit = 3) ∧
      (r.saved.isSome = true ↔ (r.exit = 0 ∧ r.posted ≠ [])) := by
  obtain ⟨tpl, htpl⟩ := resolve_template_isOk w.templateFile w.message_template_env htf
  refine ⟨run_after_state w tpl m, main_eq_run w tpl m htpl hs, ?_⟩
  unfold run_after_state
  rcases hl : w.lookup with e | ⟨live, title, thumb⟩
  · simp
  · cases h1 : pyTruthyStrOpt live
    · simp [h1]
    · cases h2 : pyEq (objGet m "last_notified_video_id") (live.getD "")
      · rcases hfi : fetch_image thumb w.downloadResult with e2 | img
        · simp [h1, h2, hfi]
        · rcases hp : w.publishResult with e3 | u
          · simp [h1, h2, hfi, hp]
          · simp [h1, h2, hfi, hp]
      · simp [h1, h2]

/-- C3 witness: an ordinary successful notify-and-persist run. -/
theorem main_exit_code_totality_witness :
    (wTotal.templateFile ≠ TemplRead.notUtf8) ∧
    load_state wTotal.stateFile = Except.ok (JsonVal.obj []) ∧
    (∃ r, main wTotal = Except.ok r ∧ (r.exit = 0 ∨ r.exit = 2 ∨ r.exit = 3) ∧
      (r.saved.isSome = true ↔ (r.exit = 0 ∧ r.posted ≠ []))) :=
  ⟨by decide, rfl, main_exit_code_totality wTotal [] (by decide) rfl⟩

/-- C9: when a new broadcast has a thumbnail URL and the thumbnail
download fails, the run exits with code 3, `post_to_bluesky` (and hence
the login) is never invoked, and no state is written. -/
theorem main_thumbnail_failure_exits_three (w : World) (m : List (String × JsonVal))
    (vid turl : String) (title : Option String)
    (htf : w.templateFile ≠ TemplRead.notUtf8)
    (hs : load_state w.stateFile = Except.ok (JsonVal.obj m))
    (hl : w.lookup = Except.ok (some vid, title, some turl))
    (hv : pyTruthyStrOpt (some vid) = true)
    (hnew : pyEq (objGet m "last_notified_video_id") vid = false)
    (ht : pyTruthyStrOpt (some turl) = true)
    (hdl : w.downloadResult = Except.error ()) :
    main w = Except.ok ⟨3, none, 0, []⟩ := by
  obtain ⟨tpl, htpl⟩ := resolve_template_isOk w.templateFile w.message_template_env htf
  rw [main_eq_run w tpl m htpl hs]
  unfold run_after_state
  rw [hl]
  simp [hv, hnew, fetch_image, ht, hdl, Except.map]

/-- C9 witness: new broadcast with a thumbnail URL whose download fails. -/
theorem main_thumbnail_failure_exits_three_witness :
    (wThumbFail.templateFile ≠ TemplRead.notUtf8) ∧
    load_state wThumbFail.stateFile =
      Except.ok (JsonVal.obj [("last_notified_video_id", JsonVal.str "abc123")]) ∧
    wThumbFail.lookup = Except.ok (some "xyz789", some "Live Now",
      some "https://i.ytimg.com/vi/xyz789/maxresdefault.jpg") ∧
    pyTruthyStrOpt (some "xyz789") = true ∧
    pyEq (objGet [("last_notified_video_id", JsonVal.str "abc123")]
      "last_notified_video_id") "xyz789" = false ∧
    pyTruthyStrOpt (some "https://i.ytimg.com/vi/xyz789/maxresdefault.jpg") = true ∧
    wThumbFail.downloadResult = Except.error () ∧
    main wThumbFail = Except.ok ⟨3, none, 0, []⟩ :=
  ⟨by decide, rfl, rfl, rfl, rfl, rfl, rfl,
    main_thumbnail_failure_exits_three wThumbFail
      [("last_notified_video_id", JsonVal.str "abc123")] "xyz789"
      "https://i.ytimg.com/vi/xyz789/maxresdefault.jpg" (some "Live Now")
      (by decide) rfl rfl rfl rfl rfl rfl⟩

/-- C10: on the successful notify-and-persist path the mapping written to
the state file is the loaded mapping with only the
`last_notified_video_id` entry set to the new broadcast id; every other
key keeps the value it had in the loaded state. -/
theorem main_success_frame_preserves_other_keys (w : World)
    (m : List (String × JsonVal)) (vid : String) (title thumb : Option String)
    (img : Option (List Nat))
    (htf : w.templateFile ≠ TemplRead.notUtf8)
    (hs : load_state w.stateFile = Except.ok (JsonVal.obj m))
    (hl : w.lookup = Except.ok (some vid, title, thumb))
    (hv : pyTruthyStrOpt (some vid) = true)
    (hnew : pyEq (objGet m "last_notified_video_id") vid = false)
    (himg : fetch_image thumb w.downloadResult = Except.ok img)
    (hpub : w.publishResult = Except.ok ()) :
    ∃ r, main w = Except.ok r ∧
      r.saved = some (objSet m "last_notified_video_id" (JsonVal.str vid)) ∧
      (∀ k, k ≠ "last_notified_video_id" →
        objGet (objSet m "last_notified_video_id" (JsonVal.str vid)) k = objGet m k) ∧
      objGet (objSet m "last_notified_video_id" (JsonVal.str vid))
        "last_notified_video_id" = some (JsonVal.str vid) := by
  obtain ⟨tpl, htpl⟩ := resolve_template_isOk w.templateFile w.message_template_env htf
  refine ⟨run_after_state w tpl m, main_eq_run w tpl m htpl hs, ?_, ?_, ?_⟩
  · unfold run_after_state
    rw [hl]
    simp [hv, hnew, himg, hpub]
  · exact fun k hk => objGet_objSet_ne m "last_notified_video_id" k (JsonVal.str vid) hk
  · exact objGet_objSet_self m "last_notified_video_id" (JsonVal.str vid)

/-- C10 witness: loaded state has a second key `"other_key"` beside the
marker; after the successful run it is written back unchanged. -/
theorem main_success_frame_preserves_other_keys_witness :
    (wFrame.templateFile ≠ TemplRead.notUtf8) ∧
    load_state wFrame.stateFile = Except.ok (JsonVal.obj
      [("other_key", JsonVal.num 5), ("last_notified_video_id", JsonVal.str "abc123")]) ∧
    wFrame.lookup = Except.ok (some "xyz789", some "Live Now", none) ∧
    pyTruthyStrOpt (some "xyz789") = true ∧
    pyEq (objGet [("other_key", JsonVal.num 5),
      ("last_notified_video_id", JsonVal.str "abc123")]
      "last_notified_video_id") "xyz789" = false ∧
    fetch_image none wFrame.downloadResult = Except.ok none ∧
    wFrame.publishResult = Except.ok () ∧
    (∃ r, main wFrame = Except.ok r ∧
      r.saved = some (objSet
        [("other_key", JsonVal.num 5), ("last_notified_video_id", JsonVal.str "abc123")]
        "last_notified_video_id" (JsonVal.str "xyz789")) ∧
      (∀ k, k ≠ "last_notified_video_id" →
        objGet (objSet
          [("other_key", JsonVal.num 5), ("last_notified_video_id", JsonVal.str "abc123")]
          "last_notified_video_id" (JsonVal.str "xyz789")) k =
        objGet [("other_key", JsonVal.num 5),
          ("last_notified_video_id", JsonVal.str "abc123")] k) ∧
      objGet (objSet
        [("other_key", JsonVal.num 5), ("last_notified_video_id", JsonVal.str "abc123")]
        "last_notified_video_id" (JsonVal.str "xyz789"))
        "last_notified_video_id" = some (JsonVal.str "xyz789")) :=
  ⟨by decide, rfl, rfl, rfl, rfl, rfl, rfl,
    main_success_frame_preserves_other_keys wFrame
      [("other_key", JsonVal.num 5), ("last_notified_video_id", JsonVal.str "abc123")]
      "xyz789" (some "Live Now") none none
      (by decide) rfl rfl rfl rfl rfl rfl⟩

/-! ## Claims C4, C6, C7, C8 (tolerant parsing and publisher shape) -/

/-- C4 counterexample: a template file whose content is whitespace-only
(blank after trimming) is used verbatim; the configured override is NOT
used, because the source tests Python truthiness (`if file_template:`),
not blankness after trimming. -/
theorem resolve_template_whitespace_file_wins_cex :
    resolve_template (TemplRead.utf8 " ") (some "OVERRIDE") = Except.ok " " ∧
    resolve_template (TemplRead.utf8 " ") (some "OVERRIDE") ≠ Except.ok "OVERRIDE" := by
  refine ⟨rfl, ?_⟩
  intro h
  have := (Except.ok.injEq (ε := PyExc) " " "OVERRIDE").mp h
  exact absurd this (by decide)

/-- C4 amended: when the template file is absent or its content is the
EMPTY string, the configured override is used if set, else the built-in
default; any NON-EMPTY file content — including whitespace-only content
that is blank after trimming — is used as the template. -/
theorem resolve_template_fallback_amended (ov : Option String) (s : String)
    (hs : s ≠ "") :
    resolve_template TemplRead.absent ov = Except.ok (ov.getD default_template) ∧
    resolve_template (TemplRead.utf8 "") ov = Except.ok (ov.getD default_template) ∧
    resolve_template (TemplRead.utf8 s) ov = Except.ok s := by
  refine ⟨rfl, rfl, ?_⟩
  have hd : s.data.isEmpty = false := by
    cases hdata : s.data with
    | nil =>
      exact absurd (by apply String.ext; simp [hdata] : s = "") hs
    | cons a l => rfl
  simp [resolve_template, load_template, pyTruthyStrOpt, hd]

/-- C4 witness: a single-space file beats the override; empty and absent
fall back. -/
theorem resolve_template_fallback_amended_witness :
    (" " ≠ "") ∧
    (resolve_template TemplRead.absent (some "OVERRIDE") =
      Except.ok ((some "OVERRIDE").getD default_template) ∧
     resolve_template (TemplRead.utf8 "") (some "OVERRIDE") =
      Except.ok ((some "OVERRIDE").getD default_template) ∧
     resolve_template (TemplRead.utf8 " ") (some "OVERRIDE") = Except.ok " ") :=
  ⟨by decide, resolve_template_fallback_amended (some "OVERRIDE") " " (by decide)⟩

/-- C6 counterexample: the rendered default-template message for video
`"abc"` with a Japanese title contains multi-byte characters followed by
the watch URL, yet the submitted post carries NO facets: `send_post` is
called without a `facets` argument, so no byte-offset link span is
computed or included. -/
theorem post_has_no_facets_cex :
    ((build_message default_template "abc" "配信中" "2025-01-01 00:00").data.any
      (fun c => 127 < c.toNat)) = true ∧
    hasSub ("https://www.youtube.com/watch?v=abc".data)
      ((build_message default_template "abc" "配信中" "2025-01-01 00:00").data) = true ∧
    (post_to_bluesky "h.example" "pw"
      (build_message default_template "abc" "配信中" "2025-01-01 00:00") none).facets
      = none := by
  refine ⟨by decide, by decide, rfl⟩

/-- C6 amended: the composed message carries no link facets at all; the
submitted post consists of the text unchanged, an image embed (alt
`"YouTube thumbnail"`) exactly when the image bytes are truthy, and an
absent facets field. -/
theorem post_to_bluesky_no_facets_amended (handle pw text : String)
    (img : Option (List Nat)) :
    (post_to_bluesky handle pw text img).facets = none ∧
    (post_to_bluesky handle pw text img).text = text ∧
    (post_to_bluesky handle pw text img).embed =
      (if pyTruthyBytesOpt img then some (img.getD [], "YouTube thumbnail") else none) := by
  unfold post_to_bluesky
  by_cases h : pyTruthyBytesOpt img = true
  · simp [h]
  · simp only [Bool.not_eq_true] at h
    simp [h]

/-- C7 counterexample: a state file whose raw bytes are not valid UTF-8
(e.g. the single byte `0xFF`) is certainly not valid structured data, yet
`load_state` raises: `open(..., encoding="utf-8")` + `json.load` raise
`UnicodeDecodeError`, which is neither of the two exception classes the
source catches. -/
theorem load_state_invalid_utf8_raises_cex :
    load_state StateRead.notUtf8 = Except.error PyExc.unicodeDecodeError := rfl

/-- C7 amended: `load_state` returns the empty state without raising when
the file is absent or its content is valid UTF-8 text that is not valid
JSON, and returns the parsed value for valid JSON; however a file whose
bytes are not valid UTF-8 raises an uncaught `UnicodeDecodeError`. -/
theorem load_state_tolerant_amended (v : JsonVal) :
    load_state StateRead.absent = Except.ok (JsonVal.obj []) ∧
    load_state (StateRead.utf8 none) = Except.ok (JsonVal.obj []) ∧
    load_state (StateRead.utf8 (some v)) = Except.ok v ∧
    load_state StateRead.notUtf8 = Except.error PyExc.unicodeDecodeError :=
  ⟨rfl, rfl, rfl, rfl⟩

/-- C8 counterexample: an existing template file whose bytes are not
valid UTF-8 makes `load_template` raise (`UnicodeDecodeError` is not
caught — only `FileNotFoundError` is): there is no prioritized list of
encodings and no lossy fallback. -/
theorem load_template_invalid_utf8_raises_cex :
    load_template TemplRead.notUtf8 = Except.error PyExc.unicodeDecodeError := rfl

/-- C8 amended: `load_template` decodes with UTF-8 only: it returns the
text of a UTF-8 file and `None` for a missing file, but a file whose
bytes are not valid UTF-8 raises an uncaught decode error which fails the
whole run. -/
theorem load_template_utf8_only_amended (s : String) (w : World)
    (h : w.templateFile = TemplRead.notUtf8) :
    load_template (TemplRead.utf8 s) = Except.ok (some s) ∧
    load_template TemplRead.absent = Except.ok none ∧
    main w = Except.error PyExc.unicodeDecodeError := by
  refine ⟨rfl, rfl, ?_⟩
  unfold main resolve_template
  rw [h]
  rfl

/-- C8 witness: a run whose template file is not valid UTF-8 dies with
the decode error. -/
theorem load_template_utf8_only_amended_witness :
    wBadTemplate.templateFile = TemplRead.notUtf8 ∧
    (load_template (TemplRead.utf8 "t") = Except.ok (some "t") ∧
     load_template TemplRead.absent = Except.ok none ∧
     main wBadTemplate = Except.error PyExc.unicodeDecodeError) :=
  ⟨rfl, load_template_utf8_only_amended "t" wBadTemplate rfl⟩

/-- C5 counterexample: with template `"{title}"` and a title that is the
literal text `"{now}"`, the chained replacement substitutes the `{now}`
token that arrived INSIDE the substituted title value, so the result is
the timestamp, not the verbatim title — substitution is neither
order-independent nor protected against re-substitution. -/
theorem build_message_title_reinjects_now_cex :
    build_message "{title}" "v" "{now}" "2025-01-01 00:00" = "2025-01-01 00:00" ∧
    build_message "{title}" "v" "{now}" "2025-01-01 00:00" ≠ "{now}" :=
  ⟨rfl, by decide⟩

/-! ## C5 machinery -/

theorem pyReplaceFuel_nil (f : Nat) (pat rep : List Char) :
    pyReplaceFuel f [] pat rep = [] := by
  cases f <;> rfl

theorem pyReplaceFuel_fuel (f g : Nat) (s pat rep : List Char)
    (hf : s.length ≤ f) (hg : s.length ≤ g) :
    pyReplaceFuel f s pat rep = pyReplaceFuel g s pat rep := by
  induction f generalizing g s with
  | zero =>
    have hs : s = [] := List.eq_nil_of_length_eq_zero (Nat.le_zero.mp hf)
    subst hs
    rw [pyReplaceFuel_nil, pyReplaceFuel_nil]
  | succ f ih =>
    cases s with
    | nil => rw [pyReplaceFuel_nil, pyReplaceFuel_nil]
    | cons c s =>
      cases g with
      | zero => simp at hg
      | succ g =>
        simp only [pyReplaceFuel]
        have hsf : s.length ≤ f := by simpa using hf
        have hsg : s.length ≤ g := by simpa using hg
        by_cases hcond : (pat.isPrefixOf (c :: s) && !pat.isEmpty) = true
        · rw [if_pos hcond, if_pos hcond]
          congr 1
          exact ih _ _ (by simp [List.length_drop]; omega) (by simp [List.length_drop]; omega)
        · rw [if_neg hcond, if_neg hcond]
          congr 1
          exact ih _ _ hsf hsg

theorem isPrefixOf_append_self (p s : List Char) : p.isPrefixOf (p ++ s) = true := by
  induction p with
  | nil => cases s <;> rfl
  | cons c p ih => simp [List.isPrefixOf, ih]

theorem drop_len_append (p s : List Char) : List.drop p.length (p ++ s) = s := by
  induction p with
  | nil => rfl
  | cons c p ih => simp [ih]

theorem hasChar_false_forall (l : List Char) (d : Char) (h : hasChar l d = false) :
    ∀ c ∈ l, ¬ c = d := by
  induction l with
  | nil => intro c hc; cases hc
  | cons a l ih =>
    intro c hc
    simp only [hasChar, Bool.or_eq_false_iff, beq_eq_false_iff_ne, ne_eq] at h
    rcases List.mem_cons.mp hc with rfl | hc'
    · exact h.1
    · exact ih h.2 c hc'

theorem hasChar_append (a b : List Char) (d : Char) :
    hasChar (a ++ b) d = (hasChar a d || hasChar b d) := by
  induction a with
  | nil => rfl
  | cons c a ih => simp [hasChar, ih, Bool.or_assoc]

theorem pyReplace_skip (a b : List Char) (p0 : Char) (pt rep : List Char)
    (ha : ∀ c ∈ a, ¬ c = p0) :
    pyReplace (a ++ b) (p0 :: pt) rep = a ++ pyReplace b (p0 :: pt) rep := by
  induction a with
  | nil => rfl
  | cons c a ih =>
    have hc : ¬ p0 = c := fun hh => (ha c (List.mem_cons_self c a)) hh.symm
    have hguard : ((p0 :: pt).isPrefixOf (c :: (a ++ b)) && !((p0 :: pt).isEmpty)) = false := by
      simp [List.isPrefixOf, hc]
    show pyReplaceFuel ((a ++ b).length + 1) (c :: (a ++ b)) (p0 :: pt) rep
        = (c :: a) ++ pyReplace b (p0 :: pt) rep
    simp only [pyReplaceFuel, hguard, Bool.false_eq_true, if_false]
    have := ih (fun c hc' => ha c (List.mem_cons_of_mem _ hc'))
    simp only [pyReplace] at this
    rw [this]
    rfl

theorem pyReplace_match (p0 : Char) (pt b rep : List Char) :
    pyReplace ((p0 :: pt) ++ b) (p0 :: pt) rep = rep ++ pyReplace b (p0 :: pt) rep := by
  show pyReplaceFuel ((pt ++ b).length + 1) (p0 :: (pt ++ b)) (p0 :: pt) rep = _
  have hguard : ((p0 :: pt).isPrefixOf (p0 :: (pt ++ b)) && !((p0 :: pt).isEmpty)) = true := by
    simp [isPrefixOf_append_self (p0 :: pt) b, List.isPrefixOf]
  simp only [pyReplaceFuel, hguard, if_true]
  have hd : List.drop ((p0 :: pt).length - 1) (pt ++ b) = b := by
    simp only [List.length_cons, Nat.add_sub_cancel]
    exact drop_len_append pt b
  rw [hd]
  congr 1
  exact pyReplaceFuel_fuel _ _ _ _ _ (by simp) (le_refl _)

theorem isPrefixOf_name_false (nm n u : List Char)
    (hnm : hasChar nm '}' = false) (hn : hasChar n '}' = false) (hne : ¬ nm = n) :
    (nm ++ ['}']).isPrefixOf (n ++ '}' :: u) = false := by
  induction nm generalizing n with
  | nil =>
    cases n with
    | nil => exact absurd rfl hne
    | cons c n' =>
      have : ¬ '}' = c := fun hh =>
        (hasChar_false_forall _ _ hn c (List.mem_cons_self c n')) hh.symm
      simp [List.isPrefixOf, this]
  | cons c nm' ih =>
    have hc : ¬ c = '}' := hasChar_false_forall _ _ hnm c (List.mem_cons_self c nm')
    have hnm' : hasChar nm' '}' = false := by
      simp only [hasChar, Bool.or_eq_false_iff] at hnm
      exact hnm.2
    cases n with
    | nil => simp [List.isPrefixOf, hc]
    | cons d n' =>
      have hn' : hasChar n' '}' = false := by
        simp only [hasChar, Bool.or_eq_false_iff] at hn
        exact hn.2
      by_cases hcd : c = d
      · subst hcd
        have hne' : ¬ nm' = n' := fun hh => hne (by rw [hh])
        simp only [List.cons_append, List.isPrefixOf, beq_self_eq_true, Bool.true_and]
        exact ih n' hnm' hn' hne'
      · simp [List.isPrefixOf, hcd]

theorem pyReplace_skip_ph (nm n u rep : List Char)
    (hnm : hasChar nm '}' = false)
    (hn1 : hasChar n '{' = false) (hn2 : hasChar n '}' = false)
    (hne : ¬ nm = n) :
    pyReplace (('{' :: (n ++ ['}'])) ++ u) ('{' :: (nm ++ ['}'])) rep
      = ('{' :: (n ++ ['}'])) ++ pyReplace u ('{' :: (nm ++ ['}'])) rep := by
  have hassoc : ('{' :: (n ++ ['}'])) ++ u = '{' :: (n ++ '}' :: u) := by
    simp
  rw [hassoc]
  have hguard : (('{' :: (nm ++ ['}'])).isPrefixOf ('{' :: (n ++ '}' :: u))
      && !(('{' :: (nm ++ ['}'])).isEmpty)) = false := by
    simp only [List.isPrefixOf, List.isEmpty, Bool.and_eq_false_iff]
    left
    simp [isPrefixOf_name_false nm n u hnm hn2 hne]
  show pyReplaceFuel ((n ++ '}' :: u).length + 1) ('{' :: (n ++ '}' :: u))
      ('{' :: (nm ++ ['}'])) rep = _
  simp only [pyReplaceFuel, hguard, Bool.false_eq_true, if_false]
  have hskip := pyReplace_skip n ('}' :: u) '{' (nm ++ ['}']) rep
    (hasChar_false_forall _ _ hn1)
  simp only [pyReplace] at hskip
  rw [hskip]
  have hstep : pyReplace ('}' :: u) ('{' :: (nm ++ ['}'])) rep
      = '}' :: pyReplace u ('{' :: (nm ++ ['}'])) rep := by
    have hguard2 : (('{' :: (nm ++ ['}'])).isPrefixOf ('}' :: u)
        && !(('{' :: (nm ++ ['}'])).isEmpty)) = false := by
      simp [List.isPrefixOf]
    show pyReplaceFuel (u.length + 1) ('}' :: u) ('{' :: (nm ++ ['}'])) rep = _
    simp only [pyReplaceFuel, hguard2, Bool.false_eq_true, if_false]
    rfl
  simp only [pyReplace] at hstep
  rw [hstep]
  simp [pyReplace]


theorem tmplChars_cons (x : Seg) (t : List Seg) :
    tmplChars (x :: t) = segChars x ++ tmplChars t := rfl

theorem substChars_cons (x : Seg) (t : List Seg) (url vid title now : String) :
    substChars (x :: t) url vid title now
      = segSubst url vid title now x ++ substChars t url vid title now := rfl

theorem replaceSeg_cons_lit (nm : String) (rep : List Char) (s : String) (t : List Seg) :
    replaceSeg nm rep (Seg.lit s :: t) = Seg.lit s :: replaceSeg nm rep t := rfl

theorem replaceSeg_cons_ph_eq (nm : String) (rep : List Char) (n : String) (t : List Seg)
    (h : (n == nm) = true) :
    replaceSeg nm rep (Seg.ph n :: t) = Seg.lit ⟨rep⟩ :: replaceSeg nm rep t := by
  have hn : n = nm := by simpa using h
  subst hn
  simp [replaceSeg]

theorem replaceSeg_cons_ph_ne (nm : String) (rep : List Char) (n : String) (t : List Seg)
    (h : (n == nm) = false) :
    replaceSeg nm rep (Seg.ph n :: t) = Seg.ph n :: replaceSeg nm rep t := by
  have hn : ¬ n = nm := by simpa using h
  simp [replaceSeg, hn]

theorem pyReplace_tmpl (t : List Seg) (nm : String) (rep : List Char)
    (ht : t.all segOkB = true)
    (hnm1 : hasChar nm.data '{' = false) (hnm2 : hasChar nm.data '}' = false) :
    pyReplace (tmplChars t) ('{' :: (nm.data ++ ['}'])) rep
      = tmplChars (replaceSeg nm rep t) := by
  induction t with
  | nil => rfl
  | cons seg t ih =>
    have hht := ht
    simp only [List.all_cons, Bool.and_eq_true] at hht
    have hseg : segOkB seg = true := hht.1
    have ht' : t.all segOkB = true := hht.2
    cases seg with
    | lit s =>
      have hs : hasChar s.data '{' = false := by
        simpa [segOkB] using hseg
      show pyReplace (s.data ++ tmplChars t) ('{' :: (nm.data ++ ['}'])) rep = _
      rw [pyReplace_skip s.data (tmplChars t) '{' (nm.data ++ ['}']) rep
        (hasChar_false_forall _ _ hs)]
      rw [ih ht']
      rfl
    | ph n =>
      by_cases h : n = nm
      · subst h
        show pyReplace (('{' :: (n.data ++ ['}'])) ++ tmplChars t)
            ('{' :: (n.data ++ ['}'])) rep = _
        rw [pyReplace_match '{' (n.data ++ ['}']) (tmplChars t) rep]
        rw [ih ht']
        rw [replaceSeg_cons_ph_eq n rep n t (by simp)]
        rfl
      · have hok := hseg
        simp only [segOkB, Bool.and_eq_true, Bool.not_eq_true'] at hok
        have hne : ¬ nm.data = n.data := fun hh => h (String.ext hh).symm
        show pyReplace (('{' :: (n.data ++ ['}'])) ++ tmplChars t)
            ('{' :: (nm.data ++ ['}'])) rep = _
        rw [pyReplace_skip_ph nm.data n.data (tmplChars t) rep hnm2 hok.1 hok.2 hne]
        rw [ih ht']
        rw [replaceSeg_cons_ph_ne nm rep n t (by simp [h])]
        rfl

theorem replaceSeg_ok (t : List Seg) (nm : String) (rep : List Char)
    (ht : t.all segOkB = true) (hrep : hasChar rep '{' = false) :
    (replaceSeg nm rep t).all segOkB = true := by
  induction t with
  | nil => rfl
  | cons seg t ih =>
    simp only [List.all_cons, Bool.and_eq_true] at ht
    have ht' := ih ht.2
    cases seg with
    | lit s =>
      rw [replaceSeg_cons_lit]
      simp only [List.all_cons, Bool.and_eq_true]
      exact ⟨ht.1, ht'⟩
    | ph n =>
      by_cases h : (n == nm) = true
      · rw [replaceSeg_cons_ph_eq nm rep n t h]
        simp only [List.all_cons, Bool.and_eq_true]
        refine ⟨?_, ht'⟩
        simpa [segOkB] using hrep
      · rw [replaceSeg_cons_ph_ne nm rep n t (by rwa [Bool.not_eq_true] at h)]
        simp only [List.all_cons, Bool.and_eq_true]
        exact ⟨ht.1, ht'⟩

theorem tmplChars_final (t : List Seg) (url vid title now : String) :
    tmplChars (replaceSeg "now" now.data (replaceSeg "title" title.data
      (replaceSeg "video_id" vid.data (replaceSeg "url" url.data t))))
      = substChars t url vid title now := by
  induction t with
  | nil => rfl
  | cons seg t ih =>
    cases seg with
    | lit s =>
      rw [replaceSeg_cons_lit, replaceSeg_cons_lit, replaceSeg_cons_lit,
        replaceSeg_cons_lit, tmplChars_cons, substChars_cons, ih]
      rfl
    | ph n =>
      by_cases h1 : (n == "url") = true
      · have hn : n = "url" := by simpa using h1
        subst hn
        rw [replaceSeg_cons_ph_eq _ _ _ _ (by decide),
          replaceSeg_cons_lit, replaceSeg_cons_lit, replaceSeg_cons_lit,
          tmplChars_cons, substChars_cons, ih]
        rfl
      · replace h1 : (n == "url") = false := by rwa [Bool.not_eq_true] at h1
        by_cases h2 : (n == "video_id") = true
        · have hn : n = "video_id" := by simpa using h2
          subst hn
          rw [replaceSeg_cons_ph_ne _ _ _ _ (by decide),
            replaceSeg_cons_ph_eq _ _ _ _ (by decide),
            replaceSeg_cons_lit, replaceSeg_cons_lit,
            tmplChars_cons, substChars_cons, ih]
          rfl
        · replace h2 : (n == "video_id") = false := by rwa [Bool.not_eq_true] at h2
          by_cases h3 : (n == "title") = true
          · have hn : n = "title" := by simpa using h3
            subst hn
            rw [replaceSeg_cons_ph_ne _ _ _ _ (by decide),
              replaceSeg_cons_ph_ne _ _ _ _ (by decide),
              replaceSeg_cons_ph_eq _ _ _ _ (by decide),
              replaceSeg_cons_lit,
              tmplChars_cons, substChars_cons, ih]
            rfl
          · replace h3 : (n == "title") = false := by rwa [Bool.not_eq_true] at h3
            by_cases h4 : (n == "now") = true
            · have hn : n = "now" := by simpa using h4
              subst hn
              rw [replaceSeg_cons_ph_ne _ _ _ _ (by decide),
                replaceSeg_cons_ph_ne _ _ _ _ (by decide),
                replaceSeg_cons_ph_ne _ _ _ _ (by decide),
                replaceSeg_cons_ph_eq _ _ _ _ (by decide),
                tmplChars_cons, substChars_cons, ih]
              rfl
            · replace h4 : (n == "now") = false := by rwa [Bool.not_eq_true] at h4
              rw [replaceSeg_cons_ph_ne _ _ _ _ h1,
                replaceSeg_cons_ph_ne _ _ _ _ h2,
                replaceSeg_cons_ph_ne _ _ _ _ h3,
                replaceSeg_cons_ph_ne _ _ _ _ h4,
                tmplChars_cons, substChars_cons, ih]
              simp [segChars, segSubst, h1, h2, h3, h4]


/-- C5 amended: substitution in `build_message` is sequential in the
source order `{url}`, `{video_id}`, `{title}`, `{now}` — NOT
order-independent: a later-order token occurring inside a substituted
value (such as a title containing `{now}`) IS itself substituted.
Provided no substituted value contains a brace, the chained replacement
coincides with simultaneous one-pass substitution: each occurrence of
each of the four tokens in the template is replaced exactly once with
its computed value, and any other `{name}` token is left verbatim.  The
template ranges over all well-formed segment lists (literal runs free of
`\x7b`, placeholder names free of braces). -/
theorem build_message_sequential_subst_amended (t : List Seg) (vid title now : String)
    (ht : t.all segOkB = true)
    (hv : hasChar vid.data '{' = false)
    (hti : hasChar title.data '{' = false)
    (hn : hasChar now.data '{' = false) :
    build_message (tmplStr t) vid title now
      = ⟨substChars t (watch_url vid) vid title now⟩ := by
  have hurl : hasChar (watch_url vid).data '{' = false := by
    have hd : (watch_url vid).data = ("https://www.youtube.com/watch?v=").data ++ vid.data := rfl
    rw [hd, hasChar_append, hv]
    rw [show hasChar ("https://www.youtube.com/watch?v=").data '{' = false from rfl]
    rfl
  have p1 : ("{url}").data = '{' :: (("url").data ++ ['}']) := rfl
  have p2 : ("{video_id}").data = '{' :: (("video_id").data ++ ['}']) := rfl
  have p3 : ("{title}").data = '{' :: (("title").data ++ ['}']) := rfl
  have p4 : ("{now}").data = '{' :: (("now").data ++ ['}']) := rfl
  have ok1 := replaceSeg_ok t "url" ((watch_url vid).data) ht hurl
  have ok2 := replaceSeg_ok _ "video_id" (vid.data) ok1 hv
  have ok3 := replaceSeg_ok _ "title" (title.data) ok2 hti
  show String.mk (pyReplace (pyReplace (pyReplace (pyReplace (tmplChars t)
      (("{url}").data) ((watch_url vid).data)) (("{video_id}").data) (vid.data))
      (("{title}").data) (title.data)) (("{now}").data) (now.data))
    = String.mk (substChars t (watch_url vid) vid title now)
  refine congrArg String.mk ?_
  rw [p1, p2, p3, p4]
  rw [pyReplace_tmpl t "url" ((watch_url vid).data) ht (by decide) (by decide)]
  rw [pyReplace_tmpl _ "video_id" (vid.data) ok1 (by decide) (by decide)]
  rw [pyReplace_tmpl _ "title" (title.data) ok2 (by decide) (by decide)]
  rw [pyReplace_tmpl _ "now" (now.data) ok3 (by decide) (by decide)]
  exact tmplChars_final t (watch_url vid) vid title now

/-- C5 witness: a template with the four known placeholders and an
unknown `{misc}`; every token is substituted once, `{misc}` survives
verbatim. -/
theorem build_message_sequential_subst_amended_witness :
    (([Seg.lit "LIVE: ", Seg.ph "title", Seg.lit " ", Seg.ph "url",
       Seg.lit " at ", Seg.ph "now", Seg.ph "misc"].all segOkB) = true) ∧
    hasChar ("abc123").data '{' = false ∧
    hasChar ("Live Now").data '{' = false ∧
    hasChar ("2025-01-01 00:00").data '{' = false ∧
    build_message (tmplStr [Seg.lit "LIVE: ", Seg.ph "title", Seg.lit " ", Seg.ph "url",
        Seg.lit " at ", Seg.ph "now", Seg.ph "misc"]) "abc123" "Live Now" "2025-01-01 00:00"
      = ⟨substChars [Seg.lit "LIVE: ", Seg.ph "title", Seg.lit " ", Seg.ph "url",
        Seg.lit " at ", Seg.ph "now", Seg.ph "misc"]
        (watch_url "abc123") "abc123" "Live Now" "2025-01-01 00:00"⟩ :=
  ⟨by decide, by decide, by decide, by decide,
    build_message_sequential_subst_amended
      [Seg.lit "LIVE: ", Seg.ph "title", Seg.lit " ", Seg.ph "url",
       Seg.lit " at ", Seg.ph "now", Seg.ph "misc"]
      "abc123" "Live Now" "2025-01-01 00:00" (by decide) (by decide) (by decide) (by decide)⟩

end Notify

